import Mathlib

/-!
Shallow embedding of `glue/core/data_region.py` (class `RegionData`) and of
the external collaborators it calls (the generic column store of
`glue.core.data.Data`, the link graph, and the representative-point
capability of the geometry library), together with proofs about the
resulting definitions.
-/

set_option autoImplicit false

namespace DataRegion

/-- Component identifiers issued by the column store (opaque, unique handles). -/
abbrev ComponentID := Nat

/-- Opaque geometry value: the core only ever extracts its representative
point, so we carry exactly that pair (`shapely` computes it; the capability is
pure: same geometry, same point). -/
structure Geometry where
  repx : Int
  repy : Int
  deriving DecidableEq, Repr

/-- An arbitrary Python object appearing as an element of a raw sequence
passed to `add_component`: either a shapely geometry or something else
(modelled by an integer payload).  The dispatch in `add_component` probes each
element with `isinstance(s, shapely.Geometry)`. -/
inductive PyObj where
  | geom (g : Geometry)
  | num (v : Int)
  deriving DecidableEq, Repr

/-- Truth value of `isinstance(s, shapely.Geometry)` for one element. -/
def PyObj.isGeom : PyObj → Bool
  | .geom _ => true
  | .num _ => false

/-- View an element as a geometry when it is one. -/
def PyObj.asGeom : PyObj → Option Geometry
  | .geom g => some g
  | .num _ => none

/-- Transform functions stored in links are opaque callables to this core; we
model them by an identifying tag, compared by identity. -/
structure TransformFunc where
  tag : Nat
  deriving DecidableEq, Repr

/-- Modelled from the spec: a Link of the external Link Graph, exposing the
set of from ids, the set of to ids, a forward transform function
(`get_using`) and an inverse transform function (`get_inverse`). -/
structure Link where
  get_from_ids : List ComponentID
  get_to_ids : List ComponentID
  get_using : TransformFunc
  get_inverse : TransformFunc
  deriving DecidableEq, Repr

/-- Modelled from the spec: membership of a component id in a link
(`cid in link`), i.e. whether the id appears in the link's governed
identifier set (its from ids together with its to ids). -/
def Link.mem (l : Link) (cid : ComponentID) : Bool :=
  l.get_from_ids.contains cid || l.get_to_ids.contains cid

/-- A column held by the generic column store: a plain numeric column, an
arbitrary raw-values column, or an `ExtendedComponent` holding the region
geometries plus the two non-owning references to its center columns
(`ExtendedComponent(values, center_comp_ids=[x, y])`). -/
inductive StoredComponent where
  | numeric (vals : List Int)
  | other (elems : List PyObj)
  | extended (geoms : List Geometry) (x : ComponentID) (y : ComponentID)
  deriving DecidableEq, Repr

/-- Row count of a stored column. -/
def StoredComponent.length : StoredComponent → Nat
  | .numeric vals => vals.length
  | .other elems => elems.length
  | .extended geoms _ _ => geoms.length

/-- Errors surfaced by the embedded operations: `ValueError` and
`AttributeError` raised by the Python code, and the failure of the column
store lookup on an absent or `None` identifier. -/
inductive RErr where
  | valueError (msg : String)
  | attributeError (msg : String)
  | incompatibleAttribute
  deriving DecidableEq, Repr

/-- State of one `RegionData` container: the underlying column store (an
insertion-ordered association list of identifier, label and column, with a
fresh-identifier counter), the single optional extended-component slot
`_extended_component_id`, and the external link-graph environment (the links
visible from this data object, and the equivalence oracle of
`glue.core.link_manager.is_equivalent_cid`). -/
structure RegionData where
  store : List (ComponentID × String × StoredComponent)
  nextId : ComponentID
  extended_component_id : Option ComponentID
  links : List Link
  equiv : ComponentID → ComponentID → Bool

namespace Data

/-- Modelled from the spec: `glue.core.data.Data.add_component` (the
`super().add_component` called by `RegionData.add_component`; not under
`src/`), per the Column Store contract `insert(values, label) -> ColumnID`:
append the column under a fresh, stable, unique identifier and return that
identifier. -/
def add_component (d : RegionData) (c : StoredComponent) (label : String) :
    RegionData × ComponentID :=
  ({ d with store := d.store ++ [(d.nextId, label, c)], nextId := d.nextId + 1 },
   d.nextId)

/-- Modelled from the spec: `glue.core.data.Data.get_component` (not under
`src/`), per the Column Store contract `get(id) -> Column`: resolve an
identifier to its column, failing fast (glue raises `IncompatibleAttribute`)
when the identifier is `None` or absent from the store. -/
def get_component (d : RegionData) (cid : Option ComponentID) :
    Except RErr StoredComponent :=
  match cid with
  | none => .error .incompatibleAttribute
  | some i =>
    match d.store.find? (fun p => p.1 == i) with
    | some p => .ok p.2.2
    | none => .error .incompatibleAttribute

/-- Modelled from the spec: `glue.core.data.Data._get_external_link` (not
under `src/`), per the Link Graph contract `lookup(id) -> Link | absent`:
return the first link involving the given identifier, or absence when no link
involves it. -/
def get_external_link (d : RegionData) (cid : ComponentID) : Option Link :=
  d.links.find? (fun l => l.mem cid)

end Data

/-- Modelled from the spec: `glue.core.link_manager.is_equivalent_cid` (not
under `src/`), the symmetric no-transform equivalence relation between two
component identifiers, queried from the environment oracle. -/
def is_equivalent_cid (d : RegionData) (cid1 cid2 : ComponentID) : Bool :=
  d.equiv cid1 cid2

/-- The attribute `x` of an `ExtendedComponent` (its stored reference to the
center-x column); accessing `.x` on any other component raises
`AttributeError` in Python. -/
def StoredComponent.x : StoredComponent → Except RErr ComponentID
  | .extended _ xid _ => .ok xid
  | _ => .error (.attributeError "object has no attribute x")

/-- The attribute `y` of an `ExtendedComponent` (its stored reference to the
center-y column). -/
def StoredComponent.y : StoredComponent → Except RErr ComponentID
  | .extended _ _ yid => .ok yid
  | _ => .error (.attributeError "object has no attribute y")

namespace RegionData

/-- Property `RegionData.center_x_id`: re-read, on every access, the `x`
reference stored inside the component referenced by
`extended_component_id` (`self.get_component(self.extended_component_id).x`). -/
def center_x_id (d : RegionData) : Except RErr ComponentID := do
  let c ← Data.get_component d d.extended_component_id
  c.x

/-- Property `RegionData.center_y_id`: re-read, on every access, the `y`
reference stored inside the component referenced by
`extended_component_id`. -/
def center_y_id (d : RegionData) : Except RErr ComponentID := do
  let c ← Data.get_component d d.extended_component_id
  c.y

/-- The value passed to `RegionData.add_component`, classified the way the
Python dispatch probes it: a raw (non-`Component`) sequence of arbitrary
elements, a pre-built plain `Component`, or a pre-built
`ExtendedComponent`. -/
inductive AddValue where
  | raw (elems : List PyObj)
  | plainComp (vals : List Int)
  | extComp (geoms : List Geometry) (x : ComponentID) (y : ComponentID)
  deriving DecidableEq, Repr

/-- Embedding of `RegionData.add_component` (src/glue/core/data_region.py,
lines 161-182).  If the value is not a `Component` and every element is a
shapely geometry, derive the two center columns from each representative
point, insert them first (labels `Center [x] for <label>` and
`Center [y] for <label>`), then insert an `ExtendedComponent` over the
geometries referencing the two new identifiers, record it in the slot and
return its identifier.  If the value is an `ExtendedComponent`, fail with
`ValueError` naming the existing slot when the slot is occupied, else insert
it, record it and return its identifier.  Anything else is delegated
unchanged to `Data.add_component`. -/
def add_component (d : RegionData) (component : AddValue) (label : String) :
    Except RErr (RegionData × ComponentID) :=
  match component with
  | .raw elems =>
    if elems.all PyObj.isGeom then
      let gs := elems.filterMap PyObj.asGeom
      let center_x := gs.map (fun g => g.repx)
      let center_y := gs.map (fun g => g.repy)
      let r1 := Data.add_component d (.numeric center_x) ("Center [x] for " ++ label)
      let r2 := Data.add_component r1.1 (.numeric center_y) ("Center [y] for " ++ label)
      let r3 := Data.add_component r2.1 (.extended gs r1.2 r2.2) label
      .ok ({ r3.1 with extended_component_id := some r3.2 }, r3.2)
    else
      -- a raw sequence that is not all geometries is not an ExtendedComponent:
      -- the dispatch falls through to the plain delegation branch
      .ok (Data.add_component d (.other elems) label)
  | .extComp geoms xid yid =>
    match d.extended_component_id with
    | some eid =>
      .error (.valueError
        ("Cannot add another ExtendedComponent; existing extended component: "
          ++ toString eid))
    | none =>
      let r := Data.add_component d (.extended geoms xid yid) label
      .ok ({ r.1 with extended_component_id := some r.2 }, r.2)
  | .plainComp vals =>
    .ok (Data.add_component d (.numeric vals) label)

/-- Embedding of `RegionData.get_transform_to_cid` (src/glue/core/
data_region.py, lines 184-227).  Resolve the axis to a center identifier
(raising `ValueError` for any axis other than `x` or `y`), look up the
external link for `other_cid`, and take the forward function when the center
id is among the from ids, else the inverse when among the to ids, else the
`None` sentinel.  Note the Python code dereferences the lookup result
unconditionally (`link.get_from_ids()`), so an absent link raises
`AttributeError` on `None`. -/
def get_transform_to_cid (d : RegionData) (axis : String)
    (other_cid : ComponentID) : Except RErr (Option TransformFunc) := do
  let this_cid ←
    if axis == "x" then d.center_x_id
    else if axis == "y" then d.center_y_id
    else .error (.valueError "axis must be x or y")
  match Data.get_external_link d other_cid with
  | none =>
    -- `link` is None here; `link.get_from_ids()` raises in Python
    .error (.attributeError "NoneType object has no attribute get_from_ids")
  | some link =>
    -- a Python function object is always truthy, so `if func: return func
    -- else return None` returns exactly `func`
    if link.get_from_ids.contains this_cid then
      .ok (some link.get_using)
    else if link.get_to_ids.contains this_cid then
      .ok (some link.get_inverse)
    else
      .ok none

/-- Embedding of `RegionData.check_if_can_display` (src/glue/core/
data_region.py, lines 229-261).  Read both center identifiers; return true as
soon as the target is equivalent to one of them; otherwise look up the
external link for the target (returning false when absent, which the Python
code checks with `if not link`), and return whether either center identifier
is contained in that link. -/
def check_if_can_display (d : RegionData) (target_cid : ComponentID) :
    Except RErr Bool := do
  let cx ← d.center_x_id
  let cy ← d.center_y_id
  if is_equivalent_cid d cx target_cid || is_equivalent_cid d cy target_cid then
    .ok true
  else
    match Data.get_external_link d target_cid with
    | none => .ok false
    | some link => .ok (link.mem cx || link.mem cy)

end RegionData

/-- A concrete link environment used to exercise the query operations: a link
whose from ids are 0 and 7, whose to ids are just 8, with distinguishable
forward and inverse transform functions. -/
def demoLink : Link :=
  { get_from_ids := [0, 7]
    get_to_ids := [8]
    get_using := { tag := 100 }
    get_inverse := { tag := 101 } }

/-- A concrete populated container: two center columns (ids 0 and 1), one
`ExtendedComponent` (id 2) referencing them, the slot set to 2, one external
link (`demoLink`), and equivalence holding exactly on identical ids. -/
def demo : RegionData :=
  { store := [(0, "Center [x] for bounds", .numeric [5, 1]),
              (1, "Center [y] for bounds", .numeric [6, 2]),
              (2, "bounds", .extended [{ repx := 5, repy := 6 },
                                       { repx := 1, repy := 2 }] 0 1)]
    nextId := 3
    extended_component_id := some 2
    links := [demoLink]
    equiv := fun a b => a == b }

/-- A concrete freshly-constructed container: empty store, slot unset, no
links. -/
def emptyDemo : RegionData :=
  { store := []
    nextId := 0
    extended_component_id := none
    links := []
    equiv := fun _ _ => false }

/-- Reduction of the monadic bind on a successful `Except` value. -/
theorem except_bind_ok {α β : Type} (a : α) (f : α → Except RErr β) :
    (Except.ok a >>= f) = f a := rfl

/-- Reduction of the monadic bind on a failed `Except` value. -/
theorem except_bind_error {α β : Type} (e : RErr) (f : α → Except RErr β) :
    ((Except.error e : Except RErr α) >>= f) = Except.error e := rfl

/-- Mapping a list of geometries into the raw-object sequence makes every
element pass the `isinstance(s, shapely.Geometry)` probe. -/
theorem all_isGeom_map_geom (gs : List Geometry) :
    (gs.map PyObj.geom).all PyObj.isGeom = true := by
  induction gs with
  | nil => rfl
  | cons g gs ih => simp_all [PyObj.isGeom]

/-- Recovering the geometries from a raw sequence built out of geometries
gives back the original list. -/
theorem filterMap_asGeom_map_geom (gs : List Geometry) :
    gs.filterMap (PyObj.asGeom ∘ PyObj.geom) = gs := by
  induction gs with
  | nil => rfl
  | cons g gs ih => simp_all [PyObj.asGeom]

/-- Claim C2: on a container whose extended-component slot is empty, adding a
geometry sequence of length N adds exactly three new columns in order: the
two numeric center columns of length N holding the representative-point x and
y values, labeled from the callers label, inserted before the region column,
then one `ExtendedComponent` of length N over the geometries referencing the
two center identifiers; the slot is set to the region columns identifier and
that identifier is returned. -/
theorem add_component_geometry_spec (d : RegionData) (gs : List Geometry)
    (label : String) (hslot : d.extended_component_id = none) :
    d.add_component (.raw (gs.map PyObj.geom)) label =
      .ok ({ d with
              store := d.store ++
                [(d.nextId, "Center [x] for " ++ label,
                    .numeric (gs.map (fun g => g.repx))),
                 (d.nextId + 1, "Center [y] for " ++ label,
                    .numeric (gs.map (fun g => g.repy))),
                 (d.nextId + 2, label,
                    .extended gs d.nextId (d.nextId + 1))]
              nextId := d.nextId + 3
              extended_component_id := some (d.nextId + 2) },
            d.nextId + 2) ∧
    (StoredComponent.numeric (gs.map (fun g => g.repx))).length = gs.length ∧
    (StoredComponent.numeric (gs.map (fun g => g.repy))).length = gs.length ∧
    (StoredComponent.extended gs d.nextId (d.nextId + 1)).length = gs.length := by
  refine ⟨?_, by simp [StoredComponent.length], by simp [StoredComponent.length], rfl⟩
  simp [RegionData.add_component, Data.add_component, all_isGeom_map_geom,
    filterMap_asGeom_map_geom]

/-- Witness for claim C2 at a concrete empty container and a two-geometry
sequence. -/
theorem add_component_geometry_spec_witness :
    emptyDemo.add_component
        (.raw [PyObj.geom { repx := 5, repy := 6 },
               PyObj.geom { repx := 1, repy := 2 }]) "bounds" =
      .ok ({ emptyDemo with
              store := [(0, "Center [x] for bounds", .numeric [5, 1]),
                        (1, "Center [y] for bounds", .numeric [6, 2]),
                        (2, "bounds",
                          .extended [{ repx := 5, repy := 6 },
                                     { repx := 1, repy := 2 }] 0 1)]
              nextId := 3
              extended_component_id := some 2 },
            2) := by
  have h := add_component_geometry_spec emptyDemo
    [{ repx := 5, repy := 6 }, { repx := 1, repy := 2 }] "bounds" rfl
  exact h.1

/-- Claim C10: adding an empty sequence takes the geometry path (the
element-wise geometry probe holds vacuously) on any container: it creates two
empty center columns and an empty `ExtendedComponent`, sets the slot to the
new identifier and returns it, rather than rejecting the input or delegating
to plain insertion. -/
theorem add_component_empty_sequence (d : RegionData) (label : String) :
    d.add_component (.raw []) label =
      .ok ({ d with
              store := d.store ++
                [(d.nextId, "Center [x] for " ++ label, .numeric []),
                 (d.nextId + 1, "Center [y] for " ++ label, .numeric []),
                 (d.nextId + 2, label, .extended [] d.nextId (d.nextId + 1))]
              nextId := d.nextId + 3
              extended_component_id := some (d.nextId + 2) },
            d.nextId + 2) := by
  simp [RegionData.add_component, Data.add_component]

/-- Claim C1 fails on the code: on a container whose slot is already set (to
identifier 2), adding a raw geometry sequence does NOT fail with a
duplicate-region error; the geometry path runs with no duplicate check,
inserts three new columns and silently replaces the slot with the new region
columns identifier 5. -/
theorem add_component_second_geometry_replaces_slot :
    demo.extended_component_id = some 2 ∧
    demo.add_component (.raw [PyObj.geom { repx := 7, repy := 8 }]) "more" =
      .ok ({ demo with
              store := demo.store ++
                [(3, "Center [x] for more", .numeric [7]),
                 (4, "Center [y] for more", .numeric [8]),
                 (5, "more", .extended [{ repx := 7, repy := 8 }] 3 4)]
              nextId := 6
              extended_component_id := some 5 },
            5) := by
  exact ⟨rfl, rfl⟩

/-- Claim C3: adding a pre-built `ExtendedComponent` to a container whose
slot is already set raises `ValueError` with a message naming the existing
slots identifier; the operation produces no new state (the error is built
before any insertion, so columns and slot are untouched). -/
theorem add_component_extended_duplicate (d : RegionData) (eid : ComponentID)
    (hslot : d.extended_component_id = some eid)
    (geoms : List Geometry) (xid yid : ComponentID) (label : String) :
    d.add_component (.extComp geoms xid yid) label =
      .error (.valueError
        ("Cannot add another ExtendedComponent; existing extended component: "
          ++ toString eid)) := by
  simp [RegionData.add_component, hslot]

/-- Witness for claim C3 at the concrete populated container, whose slot
holds identifier 2. -/
theorem add_component_extended_duplicate_witness :
    demo.add_component (.extComp [] 0 1) "again" =
      .error (.valueError
        ("Cannot add another ExtendedComponent; existing extended component: "
          ++ toString 2)) := by
  exact add_component_extended_duplicate demo 2 rfl [] 0 1 "again"

/-- Claim C9: on a container whose slot is unset, reading either center
identifier fails (the store lookup on the absent identifier raises) rather
than returning any value. -/
theorem center_ids_fail_without_slot (d : RegionData)
    (hslot : d.extended_component_id = none) :
    d.center_x_id = .error .incompatibleAttribute ∧
    d.center_y_id = .error .incompatibleAttribute := by
  constructor <;>
    simp [RegionData.center_x_id, RegionData.center_y_id, Data.get_component,
      hslot, except_bind_error]

/-- Witness for claim C9 at the concrete empty container. -/
theorem center_ids_fail_without_slot_witness :
    emptyDemo.center_x_id = .error .incompatibleAttribute ∧
    emptyDemo.center_y_id = .error .incompatibleAttribute := by
  exact center_ids_fail_without_slot emptyDemo rfl

/-- Claim C8: for any container state whatsoever, the accessors resolve by
re-reading the component referenced by the slot: whenever the slot holds an
identifier whose stored column is an `ExtendedComponent` with references xid
and yid, `center_x_id` returns exactly xid and `center_y_id` exactly yid.
Because this holds of every state, it is preserved by every operation; no
independently cached value exists. -/
theorem center_ids_read_from_extended_component (d : RegionData)
    (eid : ComponentID) (geoms : List Geometry) (xid yid : ComponentID)
    (hslot : d.extended_component_id = some eid)
    (hstore : Data.get_component d (some eid) =
      .ok (.extended geoms xid yid)) :
    d.center_x_id = .ok xid ∧ d.center_y_id = .ok yid := by
  constructor <;>
    simp [RegionData.center_x_id, RegionData.center_y_id, hslot, hstore,
      except_bind_ok, StoredComponent.x, StoredComponent.y]

/-- Witness for claim C8 at the concrete populated container. -/
theorem center_ids_read_from_extended_component_witness :
    demo.center_x_id = .ok 0 ∧ demo.center_y_id = .ok 1 := by
  exact center_ids_read_from_extended_component demo 2
    [{ repx := 5, repy := 6 }, { repx := 1, repy := 2 }] 0 1 rfl rfl

/-- Claim C7: for any axis other than x or y, `get_transform_to_cid` raises
`ValueError` for every container and every target, before any link lookup
(the result is this error even on containers whose link graph would resolve
the target). -/
theorem get_transform_invalid_axis (d : RegionData) (axis : String)
    (t : ComponentID) (hx : axis ≠ "x") (hy : axis ≠ "y") :
    d.get_transform_to_cid axis t = .error (.valueError "axis must be x or y") := by
  simp [RegionData.get_transform_to_cid, hx, hy, except_bind_error]

/-- Witness for claim C7 with axis z at the populated container and a target
that does have a link. -/
theorem get_transform_invalid_axis_witness :
    demo.get_transform_to_cid "z" 7 = .error (.valueError "axis must be x or y") := by
  exact get_transform_invalid_axis demo "z" 7 (by decide) (by decide)

/-- Claim C5: when a link exists for the target, `get_transform_to_cid`
returns the links forward function when the axis-selected center identifier
is among its from ids (taking precedence), else its inverse function when
among its to ids, else the `None` sentinel. -/
theorem get_transform_link_cases (d : RegionData) (axis : String)
    (t cid : ComponentID) (link : Link)
    (hax : (axis = "x" ∧ d.center_x_id = .ok cid) ∨
           (axis = "y" ∧ d.center_y_id = .ok cid))
    (hlink : Data.get_external_link d t = some link) :
    d.get_transform_to_cid axis t =
      .ok (if link.get_from_ids.contains cid then some link.get_using
           else if link.get_to_ids.contains cid then some link.get_inverse
           else none) := by
  rcases hax with ⟨rfl, hc⟩ | ⟨rfl, hc⟩ <;>
    (simp [RegionData.get_transform_to_cid, hc, hlink, except_bind_ok] <;>
      split_ifs <;> rfl)

/-- Witness for claim C5: at the populated container, the x transform to
target 7 (linked, with center id 0 among the from ids) is the forward
function. -/
theorem get_transform_link_cases_witness :
    demo.get_transform_to_cid "x" 7 = .ok (some { tag := 100 }) := by
  have h := get_transform_link_cases demo "x" 7 0 demoLink
    (Or.inl ⟨rfl, rfl⟩) rfl
  simpa [demoLink] using h

/-- Claim C4 fails on the code: at a container with a region column and a
target with no link, `get_transform_to_cid` does not return the no-transform
sentinel; the absent link is dereferenced (`link.get_from_ids()` on `None`)
and an `AttributeError` is raised. -/
theorem get_transform_no_link_raises :
    Data.get_external_link demo 9 = none ∧
    demo.get_transform_to_cid "x" 9 =
      .error (.attributeError "NoneType object has no attribute get_from_ids") := by
  exact ⟨rfl, rfl⟩

/-- Claim C6: with both center identifiers resolved, `check_if_can_display`
returns true as soon as the target is equivalent to either center; otherwise
it returns false when no link involves the target; otherwise it returns true
exactly when either center identifier participates in the links governed
identifier set. -/
theorem check_if_can_display_spec (d : RegionData) (t cx cy : ComponentID)
    (hx : d.center_x_id = .ok cx) (hy : d.center_y_id = .ok cy) :
    ((is_equivalent_cid d cx t || is_equivalent_cid d cy t) = true →
        d.check_if_can_display t = .ok true) ∧
    ((is_equivalent_cid d cx t || is_equivalent_cid d cy t) = false →
        Data.get_external_link d t = none →
        d.check_if_can_display t = .ok false) ∧
    (∀ link : Link,
        (is_equivalent_cid d cx t || is_equivalent_cid d cy t) = false →
        Data.get_external_link d t = some link →
        d.check_if_can_display t = .ok (link.mem cx || link.mem cy)) := by
  refine ⟨fun heq => ?_, fun heq hnone => ?_, fun link heq hsome => ?_⟩
  · simp [RegionData.check_if_can_display, hx, hy, heq, except_bind_ok]
    intro ha hb
    rw [ha, hb] at heq
    simp at heq
  · simp [RegionData.check_if_can_display, hx, hy, hnone, except_bind_ok]
    simpa using heq
  · simp [RegionData.check_if_can_display, hx, hy, hsome, except_bind_ok]
    intro h
    rcases h with h | h <;> rw [h] at heq <;> simp_all

/-- Witness for claim C6: at the populated container, target 7 is not
equivalent to either center but its link contains center id 0, so the
displayability check returns true. -/
theorem check_if_can_display_spec_witness :
    demo.check_if_can_display 7 = .ok true := by
  have h := (check_if_can_display_spec demo 7 0 1 rfl rfl).2.2 demoLink
    (by decide) rfl
  simpa [demoLink, Link.mem] using h

end DataRegion
